import Mathlib

/-!
Verification of the LightAV real-time scanning pipeline against its design
specification.  The Python sources under `src/agent` and `src/ai_engine`
are shallowly embedded below: pure functions become Lean functions,
filesystem / SQLite / log side effects become explicit state passing over
an `AgentState` record, and Python exceptions become `Except` results
(paired with the state reached when the exception escapes, since partial
side effects survive a raise).
-/

namespace LightAV

/-- Modelled from the spec: `agent/decision_types.py` is imported by
`decision_engine.py`, `static_rules.py` and `scanner.py` but is not among
the source files.  The spec defines `Verdict` as the enum
{BENIGN, MALICIOUS}; `hash_cache.py` documents the integer encoding
0 = safe, 1 = malicious used by `int(verdict)` and `Verdict(cached_verdict)`. -/
inductive Verdict where
  | BENIGN
  | MALICIOUS
deriving DecidableEq, Repr

/-- Integer encoding stored by `store_verdict(file_hash, int(verdict))`. -/
def Verdict.toInt : Verdict → Nat
  | .BENIGN => 0
  | .MALICIOUS => 1

/-- The `Verdict(cached_verdict)` constructor applied to a stored code. -/
def Verdict.ofInt (n : Nat) : Verdict :=
  if n = 1 then .MALICIOUS else .BENIGN

/-- Modelled from the spec: `agent/thresholds.py` is imported by
`static_rules.py` but is not among the source files.  The three constants
it exports are kept abstract; every theorem below holds for all values. -/
structure Thresholds where
  MAX_ENTROPY_THRESHOLD : ℚ
  MIN_SECTION_COUNT : ℚ
  MAX_SECTION_COUNT : ℚ

/-- The fixed-order 10-element numeric feature vector produced by
`ai_engine/feature_extractor.py` and destructured by
`rule_based_static_decision` in `agent/static_rules.py`.  Numeric entries
are modelled as rationals. -/
structure Features where
  file_size_kb : ℚ
  section_count : ℚ
  mean_entropy : ℚ
  max_entropy : ℚ
  dll_count : ℚ
  api_count : ℚ
  has_signature : ℚ
  entry_point : ℚ
  code_size : ℚ
  data_size : ℚ
deriving DecidableEq, Repr

/-- `agent/static_rules.py`, `rule_based_static_decision`: ordered rules,
first match wins; returns a `Verdict` or `None` (inconclusive). -/
def rule_based_static_decision (th : Thresholds) (f : Features) : Option Verdict :=
  -- Rule 1: Extremely high entropy + unsigned
  if f.max_entropy > th.MAX_ENTROPY_THRESHOLD ∧ f.has_signature = 0 then
    some Verdict.MALICIOUS
  -- Rule 2: Abnormal section count
  else if f.section_count < th.MIN_SECTION_COUNT ∨ f.section_count > th.MAX_SECTION_COUNT then
    some Verdict.MALICIOUS
  else
    none  -- inconclusive

/-- Errors raised by `ai_engine/feature_extractor.py`, `extract_features`:
`FileNotFoundError` if the file does not exist, `pefile.PEFormatError` if
it is not a valid PE. -/
inductive ExtractError where
  | FileNotFound
  | PEFormatError
deriving DecidableEq, Repr

/-- `agent/decision_engine.py`, `decide(path, cached_verdict=None)`.
The feature extractor is an external collaborator reading the filesystem,
so it is passed in as a function from paths; an exception it raises
propagates (there is no handler in `decide`). -/
def decide (extractor : String → Except ExtractError Features)
    (th : Thresholds) (path : String) (cached_verdict : Option Nat) :
    Except ExtractError (Verdict × String) :=
  match cached_verdict with
  | some c => .ok (Verdict.ofInt c, "cache")
  | none =>
    match extractor path with
    | .error e => .error e
    | .ok features =>
      match rule_based_static_decision th features with
      | some rule_verdict => .ok (rule_verdict, "rules")
      | none => .ok (Verdict.BENIGN, "default")

/-- File contents: a sequence of bytes. -/
abbrev Bytes := List Nat

/-- Pointwise update of a string-keyed partial map (filesystem, cache,
metadata store). -/
def upd {α : Type} (m : String → Option α) (k : String) (v : Option α) :
    String → Option α :=
  fun x => if x = k then v else m x

/-- `Path(file_path).name`: the final path component (the characters
after the last separator). -/
def pathName (p : String) : String :=
  String.mk (p.data.foldl (fun acc c => if c = '/' then [] else acc ++ [c]) [])

/-- The metadata record written by `quarantine_file` in
`agent/quarantine.py` (`original_path`, `file_hash`, `timestamp`,
`threat_type`, `original_name`). -/
structure QuarantineMetadata where
  original_path : String
  file_hash : String
  timestamp : Nat
  threat_type : String
  original_name : String
deriving DecidableEq, Repr

/-- One line of the append-only audit log `logs/decisions.log`
(`agent/logger.py`): `log_decision`, `log_quarantine`, `log_restore`.
Wall-clock timestamps and elapsed milliseconds are not modelled. -/
inductive AuditEvent where
  | decision (file_path file_hash source : String) (verdict : Nat)
  | quarantine (original quarantine_path : String)
  | restore (qpath restored_path : String)
deriving DecidableEq, Repr

/-- The persistent state the agent mutates: the filesystem (payload files,
quarantined payloads included), the `.meta` sidecar store, the SQLite
verdict cache of `agent/hash_cache.py`, the audit log, and the current
wall-clock second used by `quarantine_file`. -/
structure AgentState where
  fs : String → Option Bytes
  metaFs : String → Option QuarantineMetadata
  cache : String → Option Nat
  log : List AuditEvent
  now : Nat

/-- The exception `shutil.move` raises when the source is missing.  When
the destination is an existing file the move overwrites it. -/
inductive FsError where
  | FileNotFound
deriving DecidableEq, Repr

/-- `shutil.move(src, dst)`: raises `FileNotFoundError` if `src` is
missing, otherwise removes `src` and writes its bytes at `dst`,
overwriting any existing file there. -/
def shutil_move (fs : String → Option Bytes) (src dst : String) :
    Except FsError (String → Option Bytes) :=
  match fs src with
  | none => .error .FileNotFound
  | some b => .ok (upd (upd fs src none) dst (some b))

/-- `agent/quarantine.py`, `quarantine_file(file_path, file_hash)`:
builds `{timestamp}_{hash}_{filename}` under `quarantine/files/`, writes
the metadata sidecar FIRST, then moves the file.  A raise from the move
escapes with the sidecar already written, so the state at the raise is
returned alongside the error. -/
def quarantine_file (file_path file_hash : String) (s : AgentState) :
    Except FsError String × AgentState :=
  let timestamp := s.now
  let filename := pathName file_path
  let quarantine_name := toString timestamp ++ "_" ++ file_hash ++ "_" ++ filename
  let dest := "quarantine/files/" ++ quarantine_name
  let metadata : QuarantineMetadata :=
    { original_path := file_path, file_hash := file_hash, timestamp := timestamp,
      threat_type := "Malicious", original_name := filename }
  let meta_path := dest ++ ".meta"
  -- Store metadata before moving file
  let s₁ : AgentState := { s with metaFs := upd s.metaFs meta_path (some metadata) }
  match shutil_move s₁.fs file_path dest with
  | .error e => (.error e, s₁)
  | .ok fs' => (.ok dest, { s₁ with fs := fs' })

/-- `agent/restore.py`, `restore_file(quarantine_path, restore_to)`:
a bare `shutil.move` followed by `log_restore`; there is no check that
`restore_to` is unoccupied. -/
def restore_file (quarantine_path restore_to : String) (s : AgentState) :
    Except FsError Unit × AgentState :=
  match shutil_move s.fs quarantine_path restore_to with
  | .error e => (.error e, s)
  | .ok fs' =>
    (.ok (), { s with fs := fs', log := s.log ++ [.restore quarantine_path restore_to] })

/-- `gui/backend_controller.py`, `restore_file_from_quarantine`, in the
branch where `original_path` is supplied (the metadata-lookup branch for
`original_path=None` is not needed by the claims).  The whole body is in
a `try`: any raise yields `False`; on success the `.meta` sidecar is
unlinked if present (modelled as setting it to `none`, the same result
whether or not it existed) and `True` is returned. -/
def restore_file_from_quarantine (quarantine_path original_path : String)
    (s : AgentState) : Bool × AgentState :=
  match restore_file quarantine_path original_path s with
  | (.error _, s') => (false, s')
  | (.ok _, s') =>
    let meta_path := quarantine_path ++ ".meta"
    (true, { s' with metaFs := upd s'.metaFs meta_path none })

/-- The exceptions that can escape `process_file` in `agent/scanner.py`:
`FileNotFoundError` from `compute_hash` or from the quarantine move, and
the extractor errors propagating out of `decide`. -/
inductive ScanError where
  | notFound
  | extract (e : ExtractError)
deriving DecidableEq, Repr

/-- `extract_features(path)` as called by `decide`: reads the file at
`path` (raising `FileNotFoundError` if absent) and is a deterministic
function `ef` of the bytes (its own docstring: same input, same output).
`ef` is the opaque PE-parsing collaborator; it may raise `PEFormatError`. -/
def fsExtract (ef : Bytes → Except ExtractError Features)
    (fs : String → Option Bytes) (path : String) : Except ExtractError Features :=
  match fs path with
  | none => .error .FileNotFound
  | some b => ef b

/-- `agent/scanner.py`, `process_file(path)`: hash (`compute_hash` with
the opaque SHA-256 `hf` applied to the bytes), cache lookup
(`get_cached_verdict`), `decide`, `store_verdict(file_hash, int(verdict))`,
`log_decision`, and quarantine + `log_quarantine` when MALICIOUS.
Exceptions escape together with the state reached so far. -/
def process_file (hf : Bytes → String) (ef : Bytes → Except ExtractError Features)
    (th : Thresholds) (path : String) (s : AgentState) :
    Except ScanError Verdict × AgentState :=
  match s.fs path with
  | none => (.error .notFound, s)
  | some bytes =>
    let file_hash := hf bytes
    let cached := s.cache file_hash
    match decide (fsExtract ef s.fs) th path cached with
    | .error e => (.error (.extract e), s)
    | .ok (verdict, source) =>
      let s₁ : AgentState := { s with cache := upd s.cache file_hash (some verdict.toInt) }
      let s₂ : AgentState :=
        { s₁ with log := s₁.log ++ [.decision path file_hash source verdict.toInt] }
      if verdict = Verdict.MALICIOUS then
        match quarantine_file path file_hash s₂ with
        | (.ok q_path, s₃) =>
          (.ok verdict, { s₃ with log := s₃.log ++ [.quarantine path q_path] })
        | (.error _, s₃) => (.error .notFound, s₃)
      else
        (.ok verdict, s₂)

/-- `agent/main_agent.py`: `scan_queue = Queue(maxsize=1000)`. -/
def scan_queue_maxsize : Nat := 1000

/-- `queue.Queue.put_nowait(item)`: raises `Full` (here `none`) exactly
when the queue has a positive `maxsize` already reached; `maxsize <= 0`
means unbounded. -/
def put_nowait (maxsize : Nat) (q : List String) (item : String) :
    Option (List String) :=
  if 0 < maxsize ∧ maxsize ≤ q.length then none else some (q ++ [item])

/-- `agent/file_monitor.py`, `FileEventHandler._enqueue(path)`:
non-blocking put; `except Full: pass` silently drops the event. -/
def enqueue (maxsize : Nat) (q : List String) (path : String) : List String :=
  match put_nowait maxsize q path with
  | some q' => q'
  | none => q

/-- One iteration of the `worker` loop in `agent/main_agent.py`, with the
`RUNNING.is_set()` flag and the `controller.should_pause()` sample as
inputs (both are re-read every iteration; an iteration is taken as the
atomic step).  Returns the paths handed to `process_file` this iteration,
the remaining queue, and the new state.  A raise from `process_file` is
caught (`except Exception`), printed, and the loop continues; an empty
queue makes `get(timeout=1)` raise, also caught. -/
def workerStep (hf : Bytes → String) (ef : Bytes → Except ExtractError Features)
    (th : Thresholds) (running should_pause : Bool) (q : List String)
    (s : AgentState) : List String × List String × AgentState :=
  if running = false then ([], q, s)
  else if should_pause = true then ([], q, s)
  else
    match q with
    | [] => ([], [], s)
    | path :: rest => ([path], rest, (process_file hf ef th path s).2)

/-- `n` consecutive worker iterations under fixed `running`/`should_pause`
samples, accumulating the processed paths in order. -/
def workerIter (hf : Bytes → String) (ef : Bytes → Except ExtractError Features)
    (th : Thresholds) (running should_pause : Bool) :
    Nat → List String → AgentState → List String × List String × AgentState
  | 0, q, s => ([], q, s)
  | n + 1, q, s =>
    let step := workerStep hf ef th running should_pause q s
    let tail := workerIter hf ef th running should_pause n step.2.1 step.2.2
    (step.1 ++ tail.1, tail.2.1, tail.2.2)

/-! ## Concrete sample data used by witnesses and counterexamples -/

/-- Sample thresholds: entropy threshold 7, section range [2, 10]
(the values the spec's scenarios assume). -/
def sampleTh : Thresholds := ⟨7, 2, 10⟩

/-- A feature vector matching neither heuristic rule. -/
def benignFeatures : Features := ⟨500, 3, 2, 3, 5, 40, 1, 4096, 20000, 5000⟩

/-- A feature vector matching rule 1 (high entropy, unsigned). -/
def malFeatures : Features := ⟨500, 4, 5, 8, 5, 40, 0, 4096, 20000, 5000⟩

/-- An opaque stand-in for the SHA-256 collaborator. -/
def sampleHash : Bytes → String := fun _ => "h0"

/-- An extractor that always succeeds with `benignFeatures`. -/
def benignExtract : Bytes → Except ExtractError Features := fun _ => .ok benignFeatures

/-- An extractor that always raises `pefile.PEFormatError`. -/
def formatErrorExtract : Bytes → Except ExtractError Features :=
  fun _ => .error .PEFormatError

/-- A state with empty filesystem, sidecar store, cache and log. -/
def emptyState : AgentState := ⟨fun _ => none, fun _ => none, fun _ => none, [], 5⟩

/-- `emptyState` plus one file `home/f.exe` with bytes `[0]`. -/
def stateWithFile : AgentState :=
  { emptyState with fs := upd emptyState.fs "home/f.exe" (some [0]) }

/-- A quarantined payload path used by the restore examples. -/
def qPayloadPath : String := "quarantine/files/5_h_f.exe"

/-- A state holding a quarantined payload `[1, 2, 3]` with its sidecar,
and an unrelated file `[9]` already occupying `home/f.exe`. -/
def restoreState : AgentState :=
  { emptyState with
    fs := upd (upd emptyState.fs qPayloadPath (some [1, 2, 3])) "home/f.exe" (some [9]),
    metaFs := upd emptyState.metaFs (qPayloadPath ++ ".meta")
      (some ⟨"home/f.exe", "h", 5, "Malicious", "f.exe"⟩) }

/-! ## Helper lemmas -/

/-- Round-trip of the verdict integer encoding: `Verdict(int(v)) == v`. -/
theorem Verdict.ofInt_toInt (v : Verdict) : Verdict.ofInt v.toInt = v := by
  cases v <;> rfl

/-! ## Claims -/

/-- C1: for every path and every non-null cached verdict,
`decide(path, cached_verdict)` returns that cached verdict with source
CACHE; the result does not depend on the feature extractor or on the
static-rule thresholds, which are never consulted. -/
theorem c1_cache_always_wins :
    ∀ (ex₁ ex₂ : String → Except ExtractError Features) (th₁ th₂ : Thresholds)
      (path : String) (c : Nat) (v : Verdict),
      decide ex₁ th₁ path (some c) = .ok (Verdict.ofInt c, "cache") ∧
      decide ex₁ th₁ path (some c) = decide ex₂ th₂ path (some c) ∧
      decide ex₁ th₁ path (some v.toInt) = .ok (v, "cache") := by
  intro ex₁ ex₂ th₁ th₂ path c v
  exact ⟨rfl, rfl, by rw [show decide ex₁ th₁ path (some v.toInt) =
    .ok (Verdict.ofInt v.toInt, "cache") from rfl, Verdict.ofInt_toInt]⟩

/-- C6: any feature vector with `max_entropy` strictly above the entropy
threshold and `has_signature == 0` is classified MALICIOUS by the static
heuristic engine, whatever the other seven fields and thresholds are. -/
theorem c6_entropy_rule_malicious (th : Thresholds) (f : Features)
    (h₁ : f.max_entropy > th.MAX_ENTROPY_THRESHOLD)
    (h₂ : f.has_signature = 0) :
    rule_based_static_decision th f = some Verdict.MALICIOUS := by
  unfold rule_based_static_decision
  rw [if_pos ⟨h₁, h₂⟩]

/-- Witness for C6 at the concrete vector `malFeatures` and `sampleTh`. -/
theorem c6_entropy_rule_malicious_witness :
    malFeatures.max_entropy > sampleTh.MAX_ENTROPY_THRESHOLD ∧
    malFeatures.has_signature = 0 ∧
    rule_based_static_decision sampleTh malFeatures = some Verdict.MALICIOUS :=
  ⟨by decide, by decide,
    c6_entropy_rule_malicious sampleTh malFeatures (by decide) (by decide)⟩

/-- C7: any feature vector whose `section_count` lies outside
`[MIN_SECTION_COUNT, MAX_SECTION_COUNT]` is classified MALICIOUS by the
static heuristic engine (directly by rule 2, or by rule 1 if that fires
first — the result is MALICIOUS either way). -/
theorem c7_section_rule_malicious (th : Thresholds) (f : Features)
    (h : f.section_count < th.MIN_SECTION_COUNT ∨
         f.section_count > th.MAX_SECTION_COUNT) :
    rule_based_static_decision th f = some Verdict.MALICIOUS := by
  by_cases h₁ : f.max_entropy > th.MAX_ENTROPY_THRESHOLD ∧ f.has_signature = 0
  · unfold rule_based_static_decision
    rw [if_pos h₁]
  · unfold rule_based_static_decision
    rw [if_neg h₁, if_pos h]

/-- Witness for C7 at a concrete vector with `section_count = 1 < 2`. -/
theorem c7_section_rule_malicious_witness :
    ((1 : ℚ) < sampleTh.MIN_SECTION_COUNT ∨ (1 : ℚ) > sampleTh.MAX_SECTION_COUNT) ∧
    rule_based_static_decision sampleTh ⟨500, 1, 2, 3, 5, 40, 1, 4096, 20000, 5000⟩ =
      some Verdict.MALICIOUS :=
  ⟨Or.inl (by decide),
    c7_section_rule_malicious sampleTh ⟨500, 1, 2, 3, 5, 40, 1, 4096, 20000, 5000⟩
      (Or.inl (by decide))⟩

/-- C8: a feature vector matching neither rule gets no opinion from the
static heuristic engine (which can never return BENIGN directly, for any
vector and thresholds), and `decide` with no cached verdict then returns
BENIGN with source DEFAULT. -/
theorem c8_default_benign (ex : String → Except ExtractError Features)
    (th : Thresholds) (path : String) (f : Features)
    (hx : ex path = .ok f)
    (h₁ : ¬(f.max_entropy > th.MAX_ENTROPY_THRESHOLD ∧ f.has_signature = 0))
    (h₂ : ¬(f.section_count < th.MIN_SECTION_COUNT ∨
            f.section_count > th.MAX_SECTION_COUNT)) :
    rule_based_static_decision th f = none ∧
    (∀ (th' : Thresholds) (g : Features),
        rule_based_static_decision th' g ≠ some Verdict.BENIGN) ∧
    decide ex th path none = .ok (Verdict.BENIGN, "default") := by
  have hnone : rule_based_static_decision th f = none := by
    unfold rule_based_static_decision
    rw [if_neg h₁, if_neg h₂]
  refine ⟨hnone, ?_, ?_⟩
  · intro th' g
    unfold rule_based_static_decision
    split_ifs <;> simp
  · simp only [LightAV.decide, hx, hnone]

/-- Witness for C8 at `benignFeatures` (the spec's Scenario A shape) with
an extractor returning it. -/
theorem c8_default_benign_witness :
    (fun _ : String => Except.ok (ε := ExtractError) benignFeatures) "home/f.exe" =
      .ok benignFeatures ∧
    ¬(benignFeatures.max_entropy > sampleTh.MAX_ENTROPY_THRESHOLD ∧
      benignFeatures.has_signature = 0) ∧
    ¬(benignFeatures.section_count < sampleTh.MIN_SECTION_COUNT ∨
      benignFeatures.section_count > sampleTh.MAX_SECTION_COUNT) ∧
    (rule_based_static_decision sampleTh benignFeatures = none ∧
      (∀ (th' : Thresholds) (g : Features),
        rule_based_static_decision th' g ≠ some Verdict.BENIGN) ∧
      decide (fun _ => .ok benignFeatures) sampleTh "home/f.exe" none =
        .ok (Verdict.BENIGN, "default")) :=
  ⟨rfl, by decide, by decide,
    c8_default_benign (fun _ => .ok benignFeatures) sampleTh "home/f.exe"
      benignFeatures rfl (by decide) (by decide)⟩

/-- C10: an enqueue attempt by the watcher when the bounded queue already
holds its capacity `C` of items leaves the queue unchanged — the newest
event is silently dropped and the producer does not block. -/
theorem c10_enqueue_full_drops (C : Nat) (q : List String) (x : String)
    (hC : 0 < C) (hq : q.length = C) :
    enqueue C q x = q := by
  have hfull : put_nowait C q x = none := by
    unfold put_nowait
    rw [if_pos ⟨hC, le_of_eq hq.symm⟩]
  unfold enqueue
  rw [hfull]

/-- Witness for C10 at the agent's actual capacity
(`scan_queue_maxsize = 1000`) with a full queue. -/
theorem c10_enqueue_full_drops_witness :
    0 < scan_queue_maxsize ∧
    (List.replicate 1000 "a").length = scan_queue_maxsize ∧
    enqueue scan_queue_maxsize (List.replicate 1000 "a") "x" =
      List.replicate 1000 "a" :=
  ⟨by decide, by rw [List.length_replicate]; rfl,
    c10_enqueue_full_drops scan_queue_maxsize (List.replicate 1000 "a") "x"
      (by decide) (by rw [List.length_replicate]; rfl)⟩

/-- C3 counterexample: with the quarantine entry present and the
destination `home/f.exe` already occupied (it holds `[9]`), the restore
does NOT fail: it returns `True` and silently overwrites the destination
with the quarantined bytes `[1, 2, 3]` — there is no occupied-destination
check anywhere in `restore_file` / `restore_file_from_quarantine`. -/
theorem c3_restore_counterexample :
    restoreState.fs "home/f.exe" = some [9] ∧
    (restore_file_from_quarantine qPayloadPath "home/f.exe" restoreState).1 = true ∧
    (restore_file_from_quarantine qPayloadPath "home/f.exe" restoreState).2.fs
      "home/f.exe" = some [1, 2, 3] :=
  ⟨rfl, rfl, rfl⟩

/-- C3 (amended): restoring an existing quarantine entry moves the file
to the destination (overwriting whatever was there), appends a restore
audit event, deletes the metadata sidecar and reports success; if the
quarantine entry is missing, the restore fails without restoring and
without touching the metadata — but an occupied destination does not
make it fail. -/
theorem c3_restore_behaviour (qpath dest : String) (s : AgentState) (b : Bytes) :
    (s.fs qpath = some b →
      restore_file_from_quarantine qpath dest s =
        (true,
          { fs := upd (upd s.fs qpath none) dest (some b),
            metaFs := upd s.metaFs (qpath ++ ".meta") none,
            cache := s.cache,
            log := s.log ++ [AuditEvent.restore qpath dest],
            now := s.now })) ∧
    (s.fs qpath = none →
      restore_file_from_quarantine qpath dest s = (false, s)) := by
  constructor
  · intro hsome
    simp only [restore_file_from_quarantine, restore_file, shutil_move, hsome]
  · intro hnone
    simp only [restore_file_from_quarantine, restore_file, shutil_move, hnone]

/-- Witness for C3 (amended): both branches at concrete states — a
present entry restores successfully, a missing entry fails. -/
theorem c3_restore_behaviour_witness :
    restoreState.fs qPayloadPath = some [1, 2, 3] ∧
    restore_file_from_quarantine qPayloadPath "home/g.exe" restoreState =
      (true,
        { fs := upd (upd restoreState.fs qPayloadPath none) "home/g.exe" (some [1, 2, 3]),
          metaFs := upd restoreState.metaFs (qPayloadPath ++ ".meta") none,
          cache := restoreState.cache,
          log := restoreState.log ++ [AuditEvent.restore qPayloadPath "home/g.exe"],
          now := restoreState.now }) ∧
    emptyState.fs qPayloadPath = none ∧
    restore_file_from_quarantine qPayloadPath "home/g.exe" emptyState =
      (false, emptyState) :=
  ⟨rfl, (c3_restore_behaviour qPayloadPath "home/g.exe" restoreState [1, 2, 3]).1 rfl,
    rfl, (c3_restore_behaviour qPayloadPath "home/g.exe" emptyState [1, 2, 3]).2 rfl⟩

/-- C4 counterexample: `quarantine_file` on a path whose file has already
vanished writes the metadata sidecar, then the move raises — leaving the
sidecar present with no relocated payload, violating "both exist or
neither does". -/
theorem c4_pair_counterexample :
    emptyState.fs "home/evil.exe" = none ∧
    (quarantine_file "home/evil.exe" "h" emptyState).1 = .error .FileNotFound ∧
    ((quarantine_file "home/evil.exe" "h" emptyState).2.metaFs
        "quarantine/files/5_h_evil.exe.meta").isSome = true ∧
    (quarantine_file "home/evil.exe" "h" emptyState).2.fs
        "quarantine/files/5_h_evil.exe" = none :=
  ⟨rfl, rfl, rfl, rfl⟩

/-- The destination path `quarantine_file` builds:
`quarantine/files/{timestamp}_{hash}_{filename}`. -/
def qDest (path h : String) (now : Nat) : String :=
  "quarantine/files/" ++ (toString now ++ "_" ++ h ++ "_" ++ pathName path)

/-- C4 (amended): a successful `quarantine_file` leaves sidecar and
payload both present; but the sidecar is written BEFORE the move and is
not rolled back, so a call whose source has vanished raises out of the
move leaving the sidecar written and the filesystem untouched — an
orphaned sidecar, not "both or neither". -/
theorem c4_sidecar_payload (path h : String) (s : AgentState) :
    (∀ b, s.fs path = some b →
      (quarantine_file path h s).1 = .ok (qDest path h s.now) ∧
      ((quarantine_file path h s).2.metaFs (qDest path h s.now ++ ".meta")).isSome =
        true ∧
      (quarantine_file path h s).2.fs (qDest path h s.now) = some b) ∧
    (s.fs path = none →
      quarantine_file path h s =
        (.error .FileNotFound,
          { s with metaFs := upd s.metaFs (qDest path h s.now ++ ".meta")
                     (some ⟨path, h, s.now, "Malicious", pathName path⟩) })) := by
  constructor
  · intro b hsome
    refine ⟨?_, ?_, ?_⟩ <;>
      simp [quarantine_file, shutil_move, hsome, upd, qDest]
  · intro hnone
    simp only [quarantine_file, shutil_move, hnone, qDest]

/-- Witness for C4 (amended): a successful quarantine of `home/f.exe`
leaves both artifacts; a quarantine of a vanished file leaves the
orphaned sidecar. -/
theorem c4_sidecar_payload_witness :
    stateWithFile.fs "home/f.exe" = some [0] ∧
    ((quarantine_file "home/f.exe" "h" stateWithFile).1 =
        .ok (qDest "home/f.exe" "h" stateWithFile.now) ∧
      ((quarantine_file "home/f.exe" "h" stateWithFile).2.metaFs
        (qDest "home/f.exe" "h" stateWithFile.now ++ ".meta")).isSome = true ∧
      (quarantine_file "home/f.exe" "h" stateWithFile).2.fs
        (qDest "home/f.exe" "h" stateWithFile.now) = some [0]) :=
  ⟨rfl, (c4_sidecar_payload "home/f.exe" "h" stateWithFile).1 [0] rfl⟩

/-- C5 counterexample: with a parseable path present, no cache entry, and
an extractor raising `PEFormatError`, the scan does NOT fall through to
the DEFAULT/BENIGN outcome — `decide` has no handler, so `process_file`
re-raises with the state fully unchanged: no verdict stored, no decision
logged (the second conjunct shows the outcome is an error, not BENIGN). -/
theorem c5_format_error_counterexample :
    stateWithFile.cache (sampleHash [0]) = none ∧
    process_file sampleHash formatErrorExtract sampleTh "home/f.exe" stateWithFile =
      (.error (.extract .PEFormatError), stateWithFile) ∧
    (process_file sampleHash formatErrorExtract sampleTh "home/f.exe"
        stateWithFile).1 ≠ .ok Verdict.BENIGN :=
  ⟨rfl, rfl, fun hcon => Except.noConfusion hcon⟩

/-- C5 (amended): a format error from the extractor on an uncached file
propagates out of `decide` and `process_file` untouched — the scan aborts
with no verdict, no cache write and no log entry, rather than reaching
DEFAULT/BENIGN; the worker catches the exception, drops the item and
keeps running on the rest of the queue, so the pool is not halted. -/
theorem c5_format_error_propagates (hf : Bytes → String)
    (ef : Bytes → Except ExtractError Features) (th : Thresholds)
    (path : String) (s : AgentState) (b : Bytes) (rest : List String)
    (hb : s.fs path = some b)
    (hc : s.cache (hf b) = none)
    (he : ef b = .error .PEFormatError) :
    process_file hf ef th path s = (.error (.extract .PEFormatError), s) ∧
    workerStep hf ef th true false (path :: rest) s = ([path], rest, s) := by
  have hp : process_file hf ef th path s = (.error (.extract .PEFormatError), s) := by
    simp only [process_file, hb, hc, LightAV.decide, fsExtract, he]
  refine ⟨hp, ?_⟩
  simp only [workerStep, hp]
  rfl

/-- Witness for C5 (amended) at the concrete uncached file `home/f.exe`
with the always-failing extractor. -/
theorem c5_format_error_propagates_witness :
    stateWithFile.fs "home/f.exe" = some [0] ∧
    stateWithFile.cache (sampleHash [0]) = none ∧
    formatErrorExtract [0] = .error .PEFormatError ∧
    (process_file sampleHash formatErrorExtract sampleTh "home/f.exe" stateWithFile =
        (.error (.extract .PEFormatError), stateWithFile) ∧
      workerStep sampleHash formatErrorExtract sampleTh true false
        ("home/f.exe" :: ["other.exe"]) stateWithFile =
        (["home/f.exe"], ["other.exe"], stateWithFile)) :=
  ⟨rfl, rfl, rfl,
    c5_format_error_propagates sampleHash formatErrorExtract sampleTh "home/f.exe"
      stateWithFile [0] ["other.exe"] rfl rfl rfl⟩

/-- C9: while RunState is Paused (the `RUNNING` event cleared), any number
of worker iterations dequeue nothing and leave queue and state untouched;
and once resumed (running, resource governor not pausing), `q.length`
iterations process exactly the items queued before the pause, in FIFO
order, leaving the queue empty — none lost.  A worker-loop iteration is
taken as the atomic step. -/
theorem c9_pause_correctness (hf : Bytes → String)
    (ef : Bytes → Except ExtractError Features) (th : Thresholds)
    (sp : Bool) (n : Nat) (q : List String) (s : AgentState) :
    workerIter hf ef th false sp n q s = ([], q, s) ∧
    (workerIter hf ef th true false q.length q s).1 = q ∧
    (workerIter hf ef th true false q.length q s).2.1 = [] := by
  have pause : ∀ (n : Nat) (q : List String) (s : AgentState),
      workerIter hf ef th false sp n q s = ([], q, s) := by
    intro n
    induction n with
    | zero => intro q s; rfl
    | succ m ih =>
      intro q s
      simp only [workerIter, workerStep, ih]
      rfl
  have run : ∀ (q : List String) (s : AgentState),
      (workerIter hf ef th true false q.length q s).1 = q ∧
      (workerIter hf ef th true false q.length q s).2.1 = [] := by
    intro q
    induction q with
    | nil => intro s; exact ⟨rfl, rfl⟩
    | cons p rest ih =>
      intro s
      have hstep : workerStep hf ef th true false (p :: rest) s =
          ([p], rest, (process_file hf ef th p s).2) := rfl
      have htail := ih (process_file hf ef th p s).2
      simp only [List.length_cons, workerIter, hstep]
      exact ⟨by rw [htail.1]; rfl, htail.2⟩
  exact ⟨pause n q s, (run q s).1, (run q s).2⟩

/-- `quarantine_file` never touches the verdict cache. -/
theorem quarantine_file_cache (p h : String) (s : AgentState) :
    ((quarantine_file p h s).2).cache = s.cache := by
  simp only [quarantine_file, shutil_move]
  split <;> rfl

/-- Explicit result of a `quarantine_file` whose source file exists. -/
theorem quarantine_file_ok (p h : String) (s : AgentState) (b : Bytes)
    (hb : s.fs p = some b) :
    quarantine_file p h s =
      (.ok (qDest p h s.now),
        { s with
          metaFs := upd s.metaFs (qDest p h s.now ++ ".meta")
            (some ⟨p, h, s.now, "Malicious", pathName p⟩),
          fs := upd (upd s.fs p none) (qDest p h s.now) (some b) }) := by
  simp only [quarantine_file, shutil_move, hb, qDest]

/-- A completed `process_file` stores the returned verdict in the cache
under the content hash of the scanned bytes. -/
theorem process_file_ok_cache (hf : Bytes → String)
    (ef : Bytes → Except ExtractError Features) (th : Thresholds)
    (path : String) (s s' : AgentState) (v : Verdict) (b : Bytes)
    (hb : s.fs path = some b)
    (h : process_file hf ef th path s = (.ok v, s')) :
    s'.cache (hf b) = some v.toInt := by
  unfold process_file at h
  rw [hb] at h
  simp only [] at h
  split at h
  · simp at h
  · rename_i v₀ src heq0
    split at h
    · split at h
      · rename_i q_path s₃ heq
        simp only [Prod.mk.injEq, Except.ok.injEq] at h
        obtain ⟨hv, hs⟩ := h
        subst hv
        subst hs
        have hc := congrArg (fun r => r.2.cache) heq
        simp only [quarantine_file_cache] at hc
        show s₃.cache (hf b) = some v₀.toInt
        rw [← hc]
        simp [upd]
      · simp at h
    · simp only [Prod.mk.injEq, Except.ok.injEq] at h
      obtain ⟨hv, hs⟩ := h
      subst hv
      subst hs
      simp [upd]

/-- C2: if a completed `process_file` returned verdict `v` and the file
still exists with unchanged bytes, a second `process_file` returns the
same verdict and its decision log entry has source `"cache"` (not
`"rules"` or `"default"`), because the first call stored `int(v)` under
the content hash. -/
theorem c2_rescan_hits_cache (hf : Bytes → String)
    (ef : Bytes → Except ExtractError Features) (th : Thresholds)
    (path : String) (s s₁ : AgentState) (v : Verdict) (b : Bytes)
    (hb : s.fs path = some b)
    (h1 : process_file hf ef th path s = (.ok v, s₁))
    (h2 : s₁.fs path = some b) :
    (process_file hf ef th path s₁).1 = .ok v ∧
    ((process_file hf ef th path s₁).2.log)[s₁.log.length]? =
      some (.decision path (hf b) "cache" v.toInt) := by
  have hcache : s₁.cache (hf b) = some v.toInt :=
    process_file_ok_cache hf ef th path s s₁ v b hb h1
  unfold process_file
  rw [h2]
  simp only [hcache, LightAV.decide, Verdict.ofInt_toInt]
  by_cases hv : v = Verdict.MALICIOUS
  · rw [if_pos hv]
    rw [quarantine_file_ok path (hf b)
      { s₁ with cache := upd s₁.cache (hf b) (some v.toInt),
                log := s₁.log ++ [AuditEvent.decision path (hf b) "cache" v.toInt] } b h2]
    refine ⟨rfl, ?_⟩
    show ((s₁.log ++ [AuditEvent.decision path (hf b) "cache" v.toInt]) ++
      [AuditEvent.quarantine path _])[s₁.log.length]? = _
    rw [List.append_assoc, List.getElem?_append_right (le_refl s₁.log.length)]
    simp
  · rw [if_neg hv]
    refine ⟨rfl, ?_⟩
    show (s₁.log ++ [AuditEvent.decision path (hf b) "cache" v.toInt])[s₁.log.length]? = _
    simp

/-- The state after a first (benign, uncached) scan of `home/f.exe`. -/
def firstScanState : AgentState :=
  (process_file sampleHash benignExtract sampleTh "home/f.exe" stateWithFile).2

/-- Witness for C2: a concrete benign file scanned twice; the second scan
returns the same verdict and its decision log entry carries source
`"cache"`. -/
theorem c2_rescan_hits_cache_witness :
    stateWithFile.fs "home/f.exe" = some [0] ∧
    process_file sampleHash benignExtract sampleTh "home/f.exe" stateWithFile =
      (.ok Verdict.BENIGN, firstScanState) ∧
    firstScanState.fs "home/f.exe" = some [0] ∧
    ((process_file sampleHash benignExtract sampleTh "home/f.exe" firstScanState).1 =
        .ok Verdict.BENIGN ∧
      ((process_file sampleHash benignExtract sampleTh "home/f.exe"
          firstScanState).2.log)[firstScanState.log.length]? =
        some (.decision "home/f.exe" (sampleHash [0]) "cache" Verdict.BENIGN.toInt)) :=
  ⟨rfl, rfl, rfl,
    c2_rescan_hits_cache sampleHash benignExtract sampleTh "home/f.exe" stateWithFile
      firstScanState Verdict.BENIGN [0] rfl rfl rfl⟩

end LightAV
